import Mathlib

/-!
Configuration headers of 3dPot.

The repository ships two configuration templates,
`codigos/arduino/config.example.h` (conveyor belt controller) and
`codigos/esp32/config.example.h` (filament weight monitor).  Each is a flat
list of object-like preprocessor definitions.  Every directive is embedded
as a constant of type `Value` carrying the tokens of its replacement text, and
each header as the list of its directives in source order.
-/

namespace ThreeDPot

/-- Replacement text of an object-like `#define`, by the kind of its token.
A decimal literal keeps its digits: `1000.0` is `float 1000 [0]` and `0.1` is
`float 0 [1]`. -/
inductive Value where
  | empty
  | int (n : Int)
  | float (whole : Nat) (frac : List Nat)
  | bool (b : Bool)
  | str (s : String)
  | ident (s : String)
  deriving DecidableEq, Repr

/-- One `#define` directive: its line in the header, the name it introduces and
the replacement text. -/
structure Define where
  line : Nat
  name : String
  body : Value
  deriving DecidableEq, Repr

namespace Arduino
/-- Line 11: #define CONFIG_H -/
def CONFIG_H : Value := .empty
/-- Line 17: #define STEP_PIN 2 -/
def STEP_PIN : Value := .int 2
/-- Line 18: #define DIR_PIN 3 -/
def DIR_PIN : Value := .int 3
/-- Line 19: #define ENABLE_PIN 4 -/
def ENABLE_PIN : Value := .int 4
/-- Line 22: #define MOTOR_STEPS_PER_REV 200 -/
def MOTOR_STEPS_PER_REV : Value := .int 200
/-- Line 23: #define MOTOR_MICROSTEPS 16 -/
def MOTOR_MICROSTEPS : Value := .int 16
/-- Line 24: #define MAX_SPEED 1000.0 -/
def MAX_SPEED : Value := .float 1000 [0]
/-- Line 25: #define ACCELERATION 500.0 -/
def ACCELERATION : Value := .float 500 [0]
/-- Line 26: #define START_SPEED 200.0 -/
def START_SPEED : Value := .float 200 [0]
/-- Line 29: #define HOME_POSITION 0 -/
def HOME_POSITION : Value := .int 0
/-- Line 30: #define WORK_POSITION 1000 -/
def WORK_POSITION : Value := .int 1000
/-- Line 31: #define CLEANUP_POSITION 500 -/
def CLEANUP_POSITION : Value := .int 500
/-- Line 37: #define SENSOR_ENTRADA 5 -/
def SENSOR_ENTRADA : Value := .int 5
/-- Line 38: #define SENSOR_SAIDA 6 -/
def SENSOR_SAIDA : Value := .int 6
/-- Line 39: #define EMERGENCIA_PIN 7 -/
def EMERGENCIA_PIN : Value := .int 7
/-- Line 42: #define SENSOR_DEBOUNCE_MS 50 -/
def SENSOR_DEBOUNCE_MS : Value := .int 50
/-- Line 43: #define SENSOR_TIMEOUT_MS 5000 -/
def SENSOR_TIMEOUT_MS : Value := .int 5000
/-- Line 49: #define LED_VERDE 8 -/
def LED_VERDE : Value := .int 8
/-- Line 50: #define LED_VERMELHO 9 -/
def LED_VERMELHO : Value := .int 9
/-- Line 51: #define LED_AMARELO 10 -/
def LED_AMARELO : Value := .int 10
/-- Line 54: #define BOTAO_START 11 -/
def BOTAO_START : Value := .int 11
/-- Line 55: #define BOTAO_RESET 12 -/
def BOTAO_RESET : Value := .int 12
/-- Line 58: #define POT_VELOCIDADE A0 -/
def POT_VELOCIDADE : Value := .ident "A0"
/-- Line 59: #define POT_MIN_SPEED 100 -/
def POT_MIN_SPEED : Value := .int 100
/-- Line 60: #define POT_MAX_SPEED 1000 -/
def POT_MAX_SPEED : Value := .int 1000
/-- Line 66: #define SERIAL_BAUDRATE 115200 -/
def SERIAL_BAUDRATE : Value := .int 115200
/-- Line 67: #define SERIAL_TIMEOUT_MS 1000 -/
def SERIAL_TIMEOUT_MS : Value := .int 1000
/-- Line 70: #define I2C_ENABLED false -/
def I2C_ENABLED : Value := .bool false
/-- Line 71: #define I2C_ADDRESS 0x42 -/
def I2C_ADDRESS : Value := .int 0x42
/-- Line 73: #define SPI_ENABLED false -/
def SPI_ENABLED : Value := .bool false
/-- Line 79: #define AUTO_MODE true -/
def AUTO_MODE : Value := .bool true
/-- Line 80: #define MANUAL_MODE false -/
def MANUAL_MODE : Value := .bool false
/-- Line 83: #define LOG_INTERVAL_MS 2000 -/
def LOG_INTERVAL_MS : Value := .int 2000
/-- Line 84: #define HEARTBEAT_INTERVAL_MS 500 -/
def HEARTBEAT_INTERVAL_MS : Value := .int 500
/-- Line 87: #define AUTO_REVERSE false -/
def AUTO_REVERSE : Value := .bool false
/-- Line 88: #define AUTO_CLEANUP true -/
def AUTO_CLEANUP : Value := .bool true
/-- Line 89: #define BEEP_ON_SUCCESS true -/
def BEEP_ON_SUCCESS : Value := .bool true
/-- Line 95: #define MAX_RUNTIME_MS 300000 -/
def MAX_RUNTIME_MS : Value := .int 300000
/-- Line 96: #define EMERGENCY_TIMEOUT_MS 3000 -/
def EMERGENCY_TIMEOUT_MS : Value := .int 3000
/-- Line 97: #define SENSOR_FAILURE_LIMIT 3 -/
def SENSOR_FAILURE_LIMIT : Value := .int 3
/-- Line 100: #define WDT_TIMEOUT_MS 8000 -/
def WDT_TIMEOUT_MS : Value := .int 8000
/-- Line 101: #define TEMP_SENSOR_PIN A1 -/
def TEMP_SENSOR_PIN : Value := .ident "A1"
/-- Line 102: #define MAX_TEMP_C 80.0 -/
def MAX_TEMP_C : Value := .float 80 [0]
/-- Line 108: #define DEBUG_LEVEL 1 -/
def DEBUG_LEVEL : Value := .int 1
/-- Line 109: #define LOG_SENSOR_READINGS false -/
def LOG_SENSOR_READINGS : Value := .bool false
/-- Line 110: #define LOG_MOTOR_STATUS false -/
def LOG_MOTOR_STATUS : Value := .bool false
/-- Line 111: #define PERFORMANCE_MONITOR true -/
def PERFORMANCE_MONITOR : Value := .bool true
/-- Line 114: #define TRACK_CYCLES true -/
def TRACK_CYCLES : Value := .bool true
/-- Line 115: #define TRACK_UPTIME true -/
def TRACK_UPTIME : Value := .bool true
/-- Line 116: #define TRACK_ERRORS true -/
def TRACK_ERRORS : Value := .bool true
/-- Line 122: #define COMMAND_BUFFER_SIZE 10 -/
def COMMAND_BUFFER_SIZE : Value := .int 10
/-- Line 123: #define COMMAND_TIMEOUT_MS 5000 -/
def COMMAND_TIMEOUT_MS : Value := .int 5000
/-- Line 126: #define EXP_PIN_1 13 -/
def EXP_PIN_1 : Value := .int 13
/-- Line 127: #define EXP_PIN_2 A2 -/
def EXP_PIN_2 : Value := .ident "A2"
/-- Line 128: #define EXP_PIN_3 A3 -/
def EXP_PIN_3 : Value := .ident "A3"
/-- Line 129: #define EXP_PIN_4 A4 -/
def EXP_PIN_4 : Value := .ident "A4"
/-- Line 135: #define CALIBRATION_SPEED 200 -/
def CALIBRATION_SPEED : Value := .int 200
/-- Line 136: #define CALIBRATION_STEPS 1000 -/
def CALIBRATION_STEPS : Value := .int 1000
/-- Line 137: #define HOMING_SPEED 100 -/
def HOMING_SPEED : Value := .int 100
/-- Line 138: #define HOMING_DIRECTION -1 -/
def HOMING_DIRECTION : Value := .int (-1)

/-- The `#define` directives of `codigos/arduino/config.example.h`, in source
order. -/
def defines : List Define :=
  [⟨11, "CONFIG_H", CONFIG_H⟩,
   ⟨17, "STEP_PIN", STEP_PIN⟩,
   ⟨18, "DIR_PIN", DIR_PIN⟩,
   ⟨19, "ENABLE_PIN", ENABLE_PIN⟩,
   ⟨22, "MOTOR_STEPS_PER_REV", MOTOR_STEPS_PER_REV⟩,
   ⟨23, "MOTOR_MICROSTEPS", MOTOR_MICROSTEPS⟩,
   ⟨24, "MAX_SPEED", MAX_SPEED⟩,
   ⟨25, "ACCELERATION", ACCELERATION⟩,
   ⟨26, "START_SPEED", START_SPEED⟩,
   ⟨29, "HOME_POSITION", HOME_POSITION⟩,
   ⟨30, "WORK_POSITION", WORK_POSITION⟩,
   ⟨31, "CLEANUP_POSITION", CLEANUP_POSITION⟩,
   ⟨37, "SENSOR_ENTRADA", SENSOR_ENTRADA⟩,
   ⟨38, "SENSOR_SAIDA", SENSOR_SAIDA⟩,
   ⟨39, "EMERGENCIA_PIN", EMERGENCIA_PIN⟩,
   ⟨42, "SENSOR_DEBOUNCE_MS", SENSOR_DEBOUNCE_MS⟩,
   ⟨43, "SENSOR_TIMEOUT_MS", SENSOR_TIMEOUT_MS⟩,
   ⟨49, "LED_VERDE", LED_VERDE⟩,
   ⟨50, "LED_VERMELHO", LED_VERMELHO⟩,
   ⟨51, "LED_AMARELO", LED_AMARELO⟩,
   ⟨54, "BOTAO_START", BOTAO_START⟩,
   ⟨55, "BOTAO_RESET", BOTAO_RESET⟩,
   ⟨58, "POT_VELOCIDADE", POT_VELOCIDADE⟩,
   ⟨59, "POT_MIN_SPEED", POT_MIN_SPEED⟩,
   ⟨60, "POT_MAX_SPEED", POT_MAX_SPEED⟩,
   ⟨66, "SERIAL_BAUDRATE", SERIAL_BAUDRATE⟩,
   ⟨67, "SERIAL_TIMEOUT_MS", SERIAL_TIMEOUT_MS⟩,
   ⟨70, "I2C_ENABLED", I2C_ENABLED⟩,
   ⟨71, "I2C_ADDRESS", I2C_ADDRESS⟩,
   ⟨73, "SPI_ENABLED", SPI_ENABLED⟩,
   ⟨79, "AUTO_MODE", AUTO_MODE⟩,
   ⟨80, "MANUAL_MODE", MANUAL_MODE⟩,
   ⟨83, "LOG_INTERVAL_MS", LOG_INTERVAL_MS⟩,
   ⟨84, "HEARTBEAT_INTERVAL_MS", HEARTBEAT_INTERVAL_MS⟩,
   ⟨87, "AUTO_REVERSE", AUTO_REVERSE⟩,
   ⟨88, "AUTO_CLEANUP", AUTO_CLEANUP⟩,
   ⟨89, "BEEP_ON_SUCCESS", BEEP_ON_SUCCESS⟩,
   ⟨95, "MAX_RUNTIME_MS", MAX_RUNTIME_MS⟩,
   ⟨96, "EMERGENCY_TIMEOUT_MS", EMERGENCY_TIMEOUT_MS⟩,
   ⟨97, "SENSOR_FAILURE_LIMIT", SENSOR_FAILURE_LIMIT⟩,
   ⟨100, "WDT_TIMEOUT_MS", WDT_TIMEOUT_MS⟩,
   ⟨101, "TEMP_SENSOR_PIN", TEMP_SENSOR_PIN⟩,
   ⟨102, "MAX_TEMP_C", MAX_TEMP_C⟩,
   ⟨108, "DEBUG_LEVEL", DEBUG_LEVEL⟩,
   ⟨109, "LOG_SENSOR_READINGS", LOG_SENSOR_READINGS⟩,
   ⟨110, "LOG_MOTOR_STATUS", LOG_MOTOR_STATUS⟩,
   ⟨111, "PERFORMANCE_MONITOR", PERFORMANCE_MONITOR⟩,
   ⟨114, "TRACK_CYCLES", TRACK_CYCLES⟩,
   ⟨115, "TRACK_UPTIME", TRACK_UPTIME⟩,
   ⟨116, "TRACK_ERRORS", TRACK_ERRORS⟩,
   ⟨122, "COMMAND_BUFFER_SIZE", COMMAND_BUFFER_SIZE⟩,
   ⟨123, "COMMAND_TIMEOUT_MS", COMMAND_TIMEOUT_MS⟩,
   ⟨126, "EXP_PIN_1", EXP_PIN_1⟩,
   ⟨127, "EXP_PIN_2", EXP_PIN_2⟩,
   ⟨128, "EXP_PIN_3", EXP_PIN_3⟩,
   ⟨129, "EXP_PIN_4", EXP_PIN_4⟩,
   ⟨135, "CALIBRATION_SPEED", CALIBRATION_SPEED⟩,
   ⟨136, "CALIBRATION_STEPS", CALIBRATION_STEPS⟩,
   ⟨137, "HOMING_SPEED", HOMING_SPEED⟩,
   ⟨138, "HOMING_DIRECTION", HOMING_DIRECTION⟩]

end Arduino

namespace ESP32
/-- Line 11: #define CONFIG_H -/
def CONFIG_H : Value := .empty
/-- Line 17: #define WIFI_SSID "SUA_REDE_WIFI" -/
def WIFI_SSID : Value := .str "SUA_REDE_WIFI"
/-- Line 18: #define WIFI_PASSWORD "SUA_SENHA_WIFI" -/
def WIFI_PASSWORD : Value := .str "SUA_SENHA_WIFI"
/-- Line 24: #define AP_SSID "3dPot-Monitor" -/
def AP_SSID : Value := .str "3dPot-Monitor"
/-- Line 25: #define AP_PASSWORD "12345678" -/
def AP_PASSWORD : Value := .str "12345678"
/-- Line 26: #define AP_CHANNEL 1 -/
def AP_CHANNEL : Value := .int 1
/-- Line 32: #define MQTT_ENABLE false -/
def MQTT_ENABLE : Value := .bool false
/-- Line 33: #define MQTT_SERVER "192.168.1.100" -/
def MQTT_SERVER : Value := .str "192.168.1.100"
/-- Line 34: #define MQTT_PORT 1883 -/
def MQTT_PORT : Value := .int 1883
/-- Line 35: #define MQTT_USER "" -/
def MQTT_USER : Value := .str ""
/-- Line 36: #define MQTT_PASSWORD "" -/
def MQTT_PASSWORD : Value := .str ""
/-- Line 37: #define MQTT_TOPIC_PREFIX "3dpot/esp32" -/
def MQTT_TOPIC_PREFIX : Value := .str "3dpot/esp32"
/-- Line 43: #define HX711_DOUT_PIN 4 -/
def HX711_DOUT_PIN : Value := .int 4
/-- Line 44: #define HX711_SCK_PIN 5 -/
def HX711_SCK_PIN : Value := .int 5
/-- Line 45: #define HX711_GAIN 128 -/
def HX711_GAIN : Value := .int 128
/-- Line 48: #define HX711_SCALE_FACTOR 2280.0 -/
def HX711_SCALE_FACTOR : Value := .float 2280 [0]
/-- Line 49: #define WEIGHT_OFFSET_TOLERANCE 0.1 -/
def WEIGHT_OFFSET_TOLERANCE : Value := .float 0 [1]
/-- Line 55: #define CARRETEL_VAZIO_PESO_G 200.0 -/
def CARRETEL_VAZIO_PESO_G : Value := .float 200 [0]
/-- Line 56: #define FILAMENTO_MAXIMO_G 1000.0 -/
def FILAMENTO_MAXIMO_G : Value := .float 1000 [0]
/-- Line 57: #define ALERTA_CRITICO_PERCENT 10.0 -/
def ALERTA_CRITICO_PERCENT : Value := .float 10 [0]
/-- Line 58: #define ALERTA_BAIXO_PERCENT 25.0 -/
def ALERTA_BAIXO_PERCENT : Value := .float 25 [0]
/-- Line 64: #define LED_STATUS_PIN 2 -/
def LED_STATUS_PIN : Value := .int 2
/-- Line 65: #define LED_WIFI_PIN 4 -/
def LED_WIFI_PIN : Value := .int 4
/-- Line 66: #define BUTTON_CALIBRATE_PIN 0 -/
def BUTTON_CALIBRATE_PIN : Value := .int 0
/-- Line 72: #define HTTP_SERVER_PORT 80 -/
def HTTP_SERVER_PORT : Value := .int 80
/-- Line 73: #define API_UPDATE_INTERVAL_MS 5000 -/
def API_UPDATE_INTERVAL_MS : Value := .int 5000
/-- Line 74: #define CALIBRATION_SAMPLES 10 -/
def CALIBRATION_SAMPLES : Value := .int 10
/-- Line 80: #define OTA_ENABLE true -/
def OTA_ENABLE : Value := .bool true
/-- Line 81: #define OTA_PASSWORD "admin" -/
def OTA_PASSWORD : Value := .str "admin"
/-- Line 82: #define OTA_HOSTNAME "3dpot-monitor" -/
def OTA_HOSTNAME : Value := .str "3dpot-monitor"
/-- Line 88: #define WIFI_TIMEOUT_MS 30000 -/
def WIFI_TIMEOUT_MS : Value := .int 30000
/-- Line 90: #define WIFI_RECONNECT_ATTEMPTS 3 -/
def WIFI_RECONNECT_ATTEMPTS : Value := .int 3
/-- Line 92: #define WIFI_RECONNECT_INTERVAL 30 -/
def WIFI_RECONNECT_INTERVAL : Value := .int 30
/-- Line 95: #define DEBUG_SERIAL true -/
def DEBUG_SERIAL : Value := .bool true
/-- Line 96: #define DEBUG_SERIAL_BAUDRATE 115200 -/
def DEBUG_SERIAL_BAUDRATE : Value := .int 115200

/-- The `#define` directives of `codigos/esp32/config.example.h`, in source
order. -/
def defines : List Define :=
  [⟨11, "CONFIG_H", CONFIG_H⟩,
   ⟨17, "WIFI_SSID", WIFI_SSID⟩,
   ⟨18, "WIFI_PASSWORD", WIFI_PASSWORD⟩,
   ⟨24, "AP_SSID", AP_SSID⟩,
   ⟨25, "AP_PASSWORD", AP_PASSWORD⟩,
   ⟨26, "AP_CHANNEL", AP_CHANNEL⟩,
   ⟨32, "MQTT_ENABLE", MQTT_ENABLE⟩,
   ⟨33, "MQTT_SERVER", MQTT_SERVER⟩,
   ⟨34, "MQTT_PORT", MQTT_PORT⟩,
   ⟨35, "MQTT_USER", MQTT_USER⟩,
   ⟨36, "MQTT_PASSWORD", MQTT_PASSWORD⟩,
   ⟨37, "MQTT_TOPIC_PREFIX", MQTT_TOPIC_PREFIX⟩,
   ⟨43, "HX711_DOUT_PIN", HX711_DOUT_PIN⟩,
   ⟨44, "HX711_SCK_PIN", HX711_SCK_PIN⟩,
   ⟨45, "HX711_GAIN", HX711_GAIN⟩,
   ⟨48, "HX711_SCALE_FACTOR", HX711_SCALE_FACTOR⟩,
   ⟨49, "WEIGHT_OFFSET_TOLERANCE", WEIGHT_OFFSET_TOLERANCE⟩,
   ⟨55, "CARRETEL_VAZIO_PESO_G", CARRETEL_VAZIO_PESO_G⟩,
   ⟨56, "FILAMENTO_MAXIMO_G", FILAMENTO_MAXIMO_G⟩,
   ⟨57, "ALERTA_CRITICO_PERCENT", ALERTA_CRITICO_PERCENT⟩,
   ⟨58, "ALERTA_BAIXO_PERCENT", ALERTA_BAIXO_PERCENT⟩,
   ⟨64, "LED_STATUS_PIN", LED_STATUS_PIN⟩,
   ⟨65, "LED_WIFI_PIN", LED_WIFI_PIN⟩,
   ⟨66, "BUTTON_CALIBRATE_PIN", BUTTON_CALIBRATE_PIN⟩,
   ⟨72, "HTTP_SERVER_PORT", HTTP_SERVER_PORT⟩,
   ⟨73, "API_UPDATE_INTERVAL_MS", API_UPDATE_INTERVAL_MS⟩,
   ⟨74, "CALIBRATION_SAMPLES", CALIBRATION_SAMPLES⟩,
   ⟨80, "OTA_ENABLE", OTA_ENABLE⟩,
   ⟨81, "OTA_PASSWORD", OTA_PASSWORD⟩,
   ⟨82, "OTA_HOSTNAME", OTA_HOSTNAME⟩,
   ⟨88, "WIFI_TIMEOUT_MS", WIFI_TIMEOUT_MS⟩,
   ⟨90, "WIFI_RECONNECT_ATTEMPTS", WIFI_RECONNECT_ATTEMPTS⟩,
   ⟨92, "WIFI_RECONNECT_INTERVAL", WIFI_RECONNECT_INTERVAL⟩,
   ⟨95, "DEBUG_SERIAL", DEBUG_SERIAL⟩,
   ⟨96, "DEBUG_SERIAL_BAUDRATE", DEBUG_SERIAL_BAUDRATE⟩]

end ESP32

/-- Names introduced by the `#define` directives of the Arduino header, in
source order. -/
def Arduino.names : List String := Arduino.defines.map Define.name

/-- Names introduced by the `#define` directives of the ESP32 header, in source
order. -/
def ESP32.names : List String := ESP32.defines.map Define.name

/-- The constants of the Arduino header that assign a pin (lines 17-19, 37-39,
49-58, 101 and 126-129). -/
def Arduino.pinAssignments : List Value :=
  [Arduino.STEP_PIN, Arduino.DIR_PIN, Arduino.ENABLE_PIN,
   Arduino.SENSOR_ENTRADA, Arduino.SENSOR_SAIDA, Arduino.EMERGENCIA_PIN,
   Arduino.LED_VERDE, Arduino.LED_VERMELHO, Arduino.LED_AMARELO,
   Arduino.BOTAO_START, Arduino.BOTAO_RESET, Arduino.POT_VELOCIDADE,
   Arduino.TEMP_SENSOR_PIN,
   Arduino.EXP_PIN_1, Arduino.EXP_PIN_2, Arduino.EXP_PIN_3, Arduino.EXP_PIN_4]

/-- The constants of the ESP32 header that assign a pin (lines 43-44 and
64-66). -/
def ESP32.pinAssignments : List Value :=
  [ESP32.HX711_DOUT_PIN, ESP32.HX711_SCK_PIN,
   ESP32.LED_STATUS_PIN, ESP32.LED_WIFI_PIN, ESP32.BUTTON_CALIBRATE_PIN]

/-- Exact value of the digits after the decimal point: `[d1, d2, ...]` stands
for `d1/10 + d2/100 + ...`. -/
def fracValue : List Nat → ℚ
  | [] => 0
  | d :: ds => ((d : ℚ) + fracValue ds) / 10

/-- Exact rational value of a numeric literal; other tokens have none. -/
def Value.toRat? : Value → Option ℚ
  | .int n => some (n : ℚ)
  | .float w f => some ((w : ℚ) + fracValue f)
  | _ => none

/-- Both constants are numeric and the first is strictly below the second. -/
def Value.numLt (a b : Value) : Prop :=
  match a.toRat?, b.toRat? with
  | some x, some y => x < y
  | _, _ => False

/-- Both constants are numeric and the first is at most the second. -/
def Value.numLe (a b : Value) : Prop :=
  match a.toRat?, b.toRat? with
  | some x, some y => x ≤ y
  | _, _ => False

/-- The constant is numeric and lies in the closed interval from `lo` to
`hi`. -/
def Value.numIn (a : Value) (lo hi : ℚ) : Prop :=
  match a.toRat? with
  | some x => lo ≤ x ∧ x ≤ hi
  | none => False

instance (a b : Value) : Decidable (Value.numLt a b) := by
  unfold Value.numLt; split <;> infer_instance

instance (a b : Value) : Decidable (Value.numLe a b) := by
  unfold Value.numLe; split <;> infer_instance

instance (a : Value) (lo hi : ℚ) : Decidable (Value.numIn a lo hi) := by
  unfold Value.numIn; split <;> infer_instance

/-- Upper-snake-case: the name is non-empty, starts with a capital letter and
consists only of capital letters, digits and underscores. -/
def isUpperSnake (s : String) : Bool :=
  match s.data with
  | [] => false
  | c :: cs => c.isUpper && (c :: cs).all (fun ch => ch.isUpper || ch.isDigit || ch == '_')

/-! ## Pin assignments -/

/-- C1: in the ESP32 header the pin constants are not pairwise distinct.
`HX711_DOUT_PIN` (line 43) and `LED_WIFI_PIN` (line 65) are both pin 4, so the
list of pin assignments has a duplicate; the other four pin constants are
pairwise distinct. -/
theorem ESP32.hx711_dout_and_led_wifi_share_pin :
    ESP32.HX711_DOUT_PIN = Value.int 4 ∧ ESP32.LED_WIFI_PIN = Value.int 4 ∧
    ¬ ESP32.pinAssignments.Nodup ∧
    [ESP32.HX711_DOUT_PIN, ESP32.HX711_SCK_PIN, ESP32.LED_STATUS_PIN,
      ESP32.BUTTON_CALIBRATE_PIN].Nodup := by
  decide

/-- C2: in the Arduino header the seventeen pin constants are pairwise
distinct, digital pins compared as integers and the analog pins `A0`..`A4` as
symbols. -/
theorem Arduino.pinAssignments_nodup : Arduino.pinAssignments.Nodup := by
  decide

/-! ## Names -/

set_option maxRecDepth 100000 in
/-- C3: in each header every name is introduced by exactly one `#define`: the
list of defined names has no duplicates. -/
theorem names_nodup : Arduino.names.Nodup ∧ ESP32.names.Nodup := by
  decide

set_option maxRecDepth 100000 in
/-- C9: every name defined in either header is upper-snake-case. -/
theorem names_upper_snake :
    ∀ n ∈ Arduino.names ++ ESP32.names, isUpperSnake n = true := by
  decide

/-- The name `HX711_DOUT_PIN`, which mixes letters, digits and underscores, is
defined in the ESP32 header and is upper-snake-case. -/
theorem names_upper_snake_witness :
    "HX711_DOUT_PIN" ∈ Arduino.names ++ ESP32.names ∧
    isUpperSnake "HX711_DOUT_PIN" = true :=
  ⟨by decide, names_upper_snake "HX711_DOUT_PIN" (by decide)⟩

/-! ## Ranges and orderings -/

/-- C4: the critical alert threshold is strictly below the low alert threshold,
and both are percentages between 0 and 100. -/
theorem ESP32.alert_thresholds_ordered :
    Value.numLt ESP32.ALERTA_CRITICO_PERCENT ESP32.ALERTA_BAIXO_PERCENT ∧
    Value.numIn ESP32.ALERTA_CRITICO_PERCENT 0 100 ∧
    Value.numIn ESP32.ALERTA_BAIXO_PERCENT 0 100 := by
  norm_num [Value.numLt, Value.numIn, Value.toRat?, fracValue,
    ESP32.ALERTA_CRITICO_PERCENT, ESP32.ALERTA_BAIXO_PERCENT]

/-- C5: the potentiometer speed range is properly ordered,
`POT_MIN_SPEED < POT_MAX_SPEED`. -/
theorem Arduino.pot_speed_range_ordered :
    Value.numLt Arduino.POT_MIN_SPEED Arduino.POT_MAX_SPEED := by
  norm_num [Value.numLt, Value.toRat?, Arduino.POT_MIN_SPEED, Arduino.POT_MAX_SPEED]

/-- C6: the debug level is an integer between 0 and 3, one of the four levels
listed in its comment (0=Off, 1=Basic, 2=Verbose, 3=Debug). -/
theorem Arduino.debug_level_documented :
    ∃ n : Int, Arduino.DEBUG_LEVEL = Value.int n ∧ 0 ≤ n ∧ n ≤ 3 :=
  ⟨1, rfl, by decide, by decide⟩

/-- C7: the constants whose comment gives the quantity in another unit agree
with it: 5 minutes, 3 seconds and 5 seconds in milliseconds, and 1.8 degrees
per step over a full turn of 360 degrees. -/
theorem unit_conversions_exact :
    Arduino.MAX_RUNTIME_MS.toRat? = some (5 * 60 * 1000) ∧
    Arduino.EMERGENCY_TIMEOUT_MS.toRat? = some (3 * 1000) ∧
    ESP32.API_UPDATE_INTERVAL_MS.toRat? = some (5 * 1000) ∧
    (Arduino.MOTOR_STEPS_PER_REV.toRat?).map (fun steps => steps * (1.8 : ℚ)) = some 360 := by
  norm_num [Value.toRat?, Arduino.MAX_RUNTIME_MS, Arduino.EMERGENCY_TIMEOUT_MS,
    ESP32.API_UPDATE_INTERVAL_MS, Arduino.MOTOR_STEPS_PER_REV]

/-- C8: the constants whose comment lists the admissible values take one of
them: the microstepping is 1, 2, 4, 8 or 16, the homing direction is -1 or 1,
and the access point password has at least 8 characters. -/
theorem documented_value_sets :
    (∃ n : Int, Arduino.MOTOR_MICROSTEPS = Value.int n ∧ n ∈ [1, 2, 4, 8, 16]) ∧
    (Arduino.HOMING_DIRECTION = Value.int (-1) ∨ Arduino.HOMING_DIRECTION = Value.int 1) ∧
    (∃ s : String, ESP32.AP_PASSWORD = Value.str s ∧ 8 ≤ s.length) :=
  ⟨⟨16, rfl, by decide⟩, Or.inl rfl, ⟨"12345678", rfl, by decide⟩⟩

/-- C10: every configured speed is within the motor limit `MAX_SPEED`, the
positions are ordered home, cleanup, work, and the sensor debounce is shorter
than the sensor timeout, which is shorter than the maximum runtime. -/
theorem Arduino.speeds_positions_timings_consistent :
    Value.numLe Arduino.POT_MAX_SPEED Arduino.MAX_SPEED ∧
    Value.numLe Arduino.POT_MIN_SPEED Arduino.START_SPEED ∧
    Value.numLe Arduino.START_SPEED Arduino.MAX_SPEED ∧
    Value.numLe Arduino.CALIBRATION_SPEED Arduino.MAX_SPEED ∧
    Value.numLe Arduino.HOMING_SPEED Arduino.MAX_SPEED ∧
    Value.numLe Arduino.HOME_POSITION Arduino.CLEANUP_POSITION ∧
    Value.numLe Arduino.CLEANUP_POSITION Arduino.WORK_POSITION ∧
    Value.numLt Arduino.SENSOR_DEBOUNCE_MS Arduino.SENSOR_TIMEOUT_MS ∧
    Value.numLt Arduino.SENSOR_TIMEOUT_MS Arduino.MAX_RUNTIME_MS := by
  norm_num [Value.numLe, Value.numLt, Value.toRat?, fracValue,
    Arduino.POT_MAX_SPEED, Arduino.MAX_SPEED, Arduino.POT_MIN_SPEED, Arduino.START_SPEED,
    Arduino.CALIBRATION_SPEED, Arduino.HOMING_SPEED, Arduino.HOME_POSITION,
    Arduino.CLEANUP_POSITION, Arduino.WORK_POSITION, Arduino.SENSOR_DEBOUNCE_MS,
    Arduino.SENSOR_TIMEOUT_MS, Arduino.MAX_RUNTIME_MS]

end ThreeDPot
